import Mathlib

set_option maxRecDepth 100000

/-!
Shallow embedding of the validation and restaurant-lookup logic of the
allergy-alert repository.

The embedding covers:
* the allergy-intake validators and submit flow of
  `src/allergy-alert/src/app/allergyForm/page.tsx`;
* the dynamic allergy-entry list operations (`addAllergyField`,
  `removeAllergyField`);
* the AI lookup request construction `getSafeFoodsByRestaurantName` of the
  `aiFunctions.mjs` module (environment checks, prompt assembly);
* the text-lookup response handling of
  `src/allergy-alert/src/app/menuInput/page.tsx` (fallback substitution,
  JSON parsing, per-category rendering filter);
* the generic HTTP client of `src/src/app/modules/client.ts`
  (`ApiClient.request` classification and the `uploadFile` load handler).

JavaScript strings are modelled as Lean `String`; `null`/`undefined`
results as `Option`; thrown exceptions as `Except`.  `JSON.parse` is
modelled by an executable recursive-descent parser over the JSON grammar.
-/

namespace AllergyAlert

/-- JavaScript whitespace: the character set matched by the regex class
backslash-s and removed by `String.prototype.trim` (ASCII whitespace plus
NBSP, BOM and the Unicode space/line/paragraph separators). -/
def jsWs (c : Char) : Bool :=
  c == ' ' || c == '\t' || c == '\n' || c == '\r' ||
  c.toNat == 0x0b || c.toNat == 0x0c ||
  c.toNat == 0xA0 || c.toNat == 0xFEFF || c.toNat == 0x1680 ||
  (0x2000 ≤ c.toNat && c.toNat ≤ 0x200A) ||
  c.toNat == 0x2028 || c.toNat == 0x2029 || c.toNat == 0x202F ||
  c.toNat == 0x205F || c.toNat == 0x3000

/-- Model of JavaScript `String.prototype.trim`: drop leading and trailing
whitespace characters. -/
def jsTrim (s : String) : String :=
  String.mk (((s.data.dropWhile jsWs).reverse.dropWhile jsWs).reverse)

/-- An ASCII letter, the character class `[a-zA-Z]`. -/
def isAsciiLetter (c : Char) : Bool :=
  (97 ≤ c.toNat && c.toNat ≤ 122) || (65 ≤ c.toNat && c.toNat ≤ 90)

/-- Model of the regex test `/^[a-zA-Z\s]+$/.test s`: at least one
character, and every character a letter or whitespace. -/
def lettersAndSpacesTest (s : String) : Bool :=
  !s.isEmpty && s.data.all (fun c => isAsciiLetter c || jsWs c)

/-- `validateAllergyInput` from `allergyForm/page.tsx` (the spec calls it
`validateAllergyEntry`): empty-after-trim, then character-class, then
untrimmed length below 2.  Returns the error message, `""` when valid. -/
def validateAllergyInput (value : String) : String :=
  if jsTrim value = "" then "This field is required"
  else if !lettersAndSpacesTest value then "Only letters and spaces are allowed"
  else if value.length < 2 then "Allergy name must be at least 2 characters long"
  else ""

/-- `validateName` from `allergyForm/page.tsx`. -/
def validateName (value : String) : String :=
  if jsTrim value = "" then "Name is required"
  else if !lettersAndSpacesTest value then "Only letters and spaces are allowed"
  else ""

/-- Split a character list at the first occurrence of `c`; `none` when `c`
does not occur. -/
def splitAtFirst (c : Char) : List Char → Option (List Char × List Char)
  | [] => none
  | x :: xs =>
    if x = c then some ([], xs)
    else (splitAtFirst c xs).map (fun p => (x :: p.1, p.2))

/-- A character admitted by the regex class `[^\s@]`. -/
def emailAtomChar (c : Char) : Bool := !jsWs c && c != '@'

/-- Whether a character list has a dot with a nonempty part before and
after it (the `[^\s@]+\.[^\s@]+` tail of the email regex, where the parts
around the matched dot may themselves contain dots). -/
def hasInteriorDot : List Char → Bool
  | [] => false
  | _ :: rest => rest.dropLast.contains '.'

/-- Model of the regex test `/^[^\s@]+@[^\s@]+\.[^\s@]+$/.test s`. -/
def emailRegexTest (s : String) : Bool :=
  match splitAtFirst '@' s.data with
  | none => false
  | some (localChars, domainChars) =>
    !localChars.isEmpty && localChars.all emailAtomChar &&
    domainChars.all emailAtomChar && hasInteriorDot domainChars

/-- `validateEmail` from `allergyForm/page.tsx`. -/
def validateEmail (value : String) : String :=
  if jsTrim value = "" then "Email is required"
  else if !emailRegexTest value then "Please enter a valid email address"
  else ""

/-- One dynamic allergy entry of the form state (`AllergyField` interface):
an id, the typed value, and the error recorded for that entry. -/
structure AllergyField where
  id : String
  value : String
  error : String
deriving DecidableEq

/-- The identity fields of the form state (`FormData` interface). -/
structure FormData where
  name : String
  email : String
  emergencyContact : String
deriving DecidableEq

/-- The per-scope error messages (`FormErrors` interface). -/
structure FormErrors where
  name : String
  email : String
  emergencyContact : String
  allergies : String
deriving DecidableEq

/-- `addAllergyField`: append a fresh empty entry with the generated id. -/
def addAllergyField (fields : List AllergyField) (newId : String) : List AllergyField :=
  fields ++ [⟨newId, "", ""⟩]

/-- `removeAllergyField`: drop the entries with the given id, guarded so a
single remaining entry is never removed. -/
def removeAllergyField (fields : List AllergyField) (id : String) : List AllergyField :=
  if fields.length > 1 then fields.filter (fun f => f.id != id) else fields

/-- The `hasValidAllergy` check inside `validateAllFields`: some entry is
non-blank after trim and error-free. -/
def hasValidAllergyIn (updated : List AllergyField) : Bool :=
  updated.any (fun f => jsTrim f.value != "" && f.error == "")

/-- `validateAllFields` from `allergyForm/page.tsx`: revalidate the name,
the email and every allergy entry; require some entry non-blank and
error-free.  Returns `isValid`, the new `FormErrors`, and the entry list
with recomputed per-entry errors. -/
def validateAllFields (fd : FormData) (fields : List AllergyField) :
    Bool × FormErrors × List AllergyField :=
  let updated := fields.map (fun f => AllergyField.mk f.id f.value (validateAllergyInput f.value))
  let noAllergyFieldError := updated.all (fun f => f.error == "")
  let hasValidAllergy := hasValidAllergyIn updated
  let errs : FormErrors :=
    ⟨validateName fd.name, validateEmail fd.email, "",
      if hasValidAllergy then "" else "At least one allergy must be provided"⟩
  let isValid := noAllergyFieldError && hasValidAllergy &&
    (errs.name == "") && (errs.email == "")
  (isValid, errs, updated)

/-- The payload assembled on successful submission (`submissionData`). -/
structure SubmissionData where
  name : String
  email : String
  emergencyContact : String
  allergies : List String
  submittedAt : String
deriving DecidableEq

/-- `handleSubmit` from `allergyForm/page.tsx`, as a pure function of the
form state: run `validateAllFields`; on failure return nothing; on success
trim the identity fields, keep the non-blank error-free entries in order,
trim them, and stamp the submission time (passed in as `now`). -/
def handleSubmit (fd : FormData) (fields : List AllergyField) (now : String) :
    Option SubmissionData :=
  if (validateAllFields fd fields).1 then
    some ⟨jsTrim fd.name, jsTrim fd.email, jsTrim fd.emergencyContact,
      (fields.filter (fun f => jsTrim f.value != "" && f.error == "")).map
        (fun f => jsTrim f.value),
      now⟩
  else none

/-- The environment variables read by `getSafeFoodsByRestaurantName` in
`aiFunctions.mjs`; `none` models an unset variable. -/
structure AzureEnv where
  apiKeyVar : Option String
  apiVersionVar : Option String
  endpointVar : Option String
  modelNameVar : Option String
  deploymentVar : Option String
deriving DecidableEq

/-- JavaScript falsiness of `process.env.X`: unset (`undefined`) or the
empty string. -/
def jsFalsyEnv : Option String → Bool
  | none => true
  | some s => s == ""

/-- The idiom `process.env.X || dflt`: the default replaces a falsy
value. -/
def envOrDefault (v : Option String) (dflt : String) : String :=
  match v with
  | none => dflt
  | some s => if s = "" then dflt else s

/-- The failures of the lookup path before any network activity.  The spec
files this error under the kind `MISSING_CONFIG`; the code raises it as a
thrown `Error` carrying the message recorded here. -/
inductive LookupError where
  | missingConfig : String → LookupError
deriving DecidableEq

/-- The single outbound chat-completion request assembled by
`getSafeFoodsByRestaurantName`: connection settings plus the system and
user messages.  A value of this type exists only when the function reaches
`client.chat.completions.create`. -/
structure ChatRequest where
  endpoint : String
  deployment : String
  apiVersion : String
  modelName : String
  systemContent : String
  userContent : String
deriving DecidableEq

/-- The `allergiesList` expression: the allergy array joined with a comma
and space when non-empty, otherwise the fixed placeholder text. -/
def allergiesListText (allergies : List String) : String :=
  if allergies.length > 0 then String.intercalate ", " allergies
  else "no specific allergies mentioned"

/-- The system message of the outbound request. -/
def systemPrompt : String :=
  "You are a helpful assistant who is helping users figure out which food from restaurants are safe to eat or not based on their allergies. Since this is a safety issue, please be thorough in your analysis and include every single food item from the restaurant."

/-- The part of the user message that follows the embedded allergy text. -/
def promptTail (restaurantName : String) : String :=
  ". I am planning to eat at " ++ restaurantName ++
  ". Can you help me identify menu items that would be safe for me to eat and which ones I should avoid? If there is an official allergen menu, please use that. Organize the different foods into three categories: 1. More Safe, 2. Questionable, 3. Avoid. For every food item, please include one or more questions that I could ask the restaurant staff that would help clarify its safety. Include every food item on the menu in your response. Please include at least 50 objects in the json response. Make sure you include every food item from the restaurant\x27s menu."

/-- The user message: the template literal of `aiFunctions.mjs` with the
allergy text and restaurant name substituted. -/
def userPrompt (restaurantName : String) (allergiesText : String) : String :=
  "I have allergies to: " ++ allergiesText ++ promptTail restaurantName

/-- `getSafeFoodsByRestaurantName` up to the network call: resolve the
environment, fail on a missing API key or endpoint before constructing the
client, otherwise assemble the outbound request.  `Except.ok` carries the
request that would be sent; `Except.error` models the thrown `Error`. -/
def getSafeFoodsByRestaurantName (env : AzureEnv) (restaurantName : String)
    (allergies : List String) : Except LookupError ChatRequest :=
  let apiVersion := envOrDefault env.apiVersionVar "2024-08-01-preview"
  let modelName := envOrDefault env.modelNameVar "gpt-4o"
  let deployment := envOrDefault env.deploymentVar "gpt-4o"
  if jsFalsyEnv env.apiKeyVar then
    Except.error (LookupError.missingConfig
      "AZURE_OPENAI_API_KEY environment variable is required")
  else if jsFalsyEnv env.endpointVar then
    Except.error (LookupError.missingConfig
      "AZURE_OPENAI_ENDPOINT environment variable is required")
  else
    Except.ok ⟨env.endpointVar.getD "", deployment, apiVersion, modelName,
      systemPrompt, userPrompt restaurantName (allergiesListText allergies)⟩

/-- The stored profile after a submission attempt: `setUserProfile` runs
only in the success branch, so a failed submission leaves the previous
profile in place. -/
def submitStoredProfile (prev : Option SubmissionData) (fd : FormData)
    (fields : List AllergyField) (now : String) : Option SubmissionData :=
  match handleSubmit fd fields now with
  | some sd => some sd
  | none => prev

/-- JSON values as produced by `JSON.parse`.  Numbers keep their source
lexeme verbatim (none of the flows under verification computes with a
number), objects keep their members in source order. -/
inductive Json where
  | null : Json
  | boolean : Bool → Json
  | num : String → Json
  | str : String → Json
  | arr : List Json → Json
  | obj : List (String × Json) → Json

/-- JSON insignificant whitespace: space, tab, line feed, carriage
return. -/
def jsonWsChar (c : Char) : Bool :=
  c == ' ' || c == '\t' || c == '\n' || c == '\r'

/-- Drop leading JSON whitespace. -/
def skipJsonWs : List Char → List Char
  | [] => []
  | c :: cs => if jsonWsChar c then skipJsonWs cs else c :: cs

/-- Value of a hexadecimal digit. -/
def hexDigitVal (c : Char) : Option Nat :=
  if 48 ≤ c.toNat ∧ c.toNat ≤ 57 then some (c.toNat - 48)
  else if 97 ≤ c.toNat ∧ c.toNat ≤ 102 then some (c.toNat - 87)
  else if 65 ≤ c.toNat ∧ c.toNat ≤ 70 then some (c.toNat - 55)
  else none

/-- The character denoted by a single-character JSON string escape. -/
def escChar : Char → Option Char
  | '"' => some '"'
  | '\\' => some '\\'
  | '/' => some '/'
  | 'b' => some (Char.ofNat 8)
  | 'f' => some (Char.ofNat 12)
  | 'n' => some '\n'
  | 'r' => some '\r'
  | 't' => some '\t'
  | _ => none

/-- Parse the body of a JSON string after the opening quote, handling
escapes; returns the string and the input after the closing quote.
Unescaped control characters are rejected, as `JSON.parse` does. -/
def parseStrBody (acc : List Char) : List Char → Option (String × List Char)
  | [] => none
  | '"' :: rest => some (String.mk acc.reverse, rest)
  | '\\' :: 'u' :: h1 :: h2 :: h3 :: h4 :: rest =>
    match hexDigitVal h1, hexDigitVal h2, hexDigitVal h3, hexDigitVal h4 with
    | some a, some b, some c, some d =>
      parseStrBody (Char.ofNat (((a * 16 + b) * 16 + c) * 16 + d) :: acc) rest
    | _, _, _, _ => none
  | '\\' :: e :: rest =>
    match escChar e with
    | some c => parseStrBody (c :: acc) rest
    | none => none
  | c :: rest => if c.toNat < 32 then none else parseStrBody (c :: acc) rest

/-- Split off a maximal run of decimal digits. -/
def spanDigits (l : List Char) : List Char × List Char :=
  (l.takeWhile (fun c => c.isDigit), l.dropWhile (fun c => c.isDigit))

/-- Parse the optional fraction part of a JSON number. -/
def parseFrac (cs : List Char) : Option (List Char × List Char) :=
  match cs with
  | '.' :: rest =>
    let (ds, rest2) := spanDigits rest
    if ds.isEmpty then none else some ('.' :: ds, rest2)
  | _ => some ([], cs)

/-- Parse the optional exponent part of a JSON number. -/
def parseExp (cs : List Char) : Option (List Char × List Char) :=
  match cs with
  | e :: rest =>
    if e == 'e' || e == 'E' then
      let (sgn, rest1) :=
        match rest with
        | '+' :: r => ((['+'] : List Char), r)
        | '-' :: r => ((['-'] : List Char), r)
        | _ => (([] : List Char), rest)
      let (ds, rest2) := spanDigits rest1
      if ds.isEmpty then none else some (e :: (sgn ++ ds), rest2)
    else some ([], cs)
  | [] => some ([], [])

/-- Parse a JSON number lexeme per the JSON grammar (no leading zeros, no
bare sign); the lexeme is kept verbatim. -/
def parseNumLexeme (cs : List Char) : Option (String × List Char) :=
  let (sign, cs1) :=
    match cs with
    | '-' :: rest => ((['-'] : List Char), rest)
    | _ => (([] : List Char), cs)
  match cs1 with
  | [] => none
  | c :: _ =>
    if !c.isDigit then none
    else
      let (intPart, cs2) :=
        match cs1 with
        | '0' :: rest => ((['0'] : List Char), rest)
        | _ => spanDigits cs1
      match parseFrac cs2 with
      | none => none
      | some (fracPart, cs3) =>
        match parseExp cs3 with
        | none => none
        | some (expPart, cs4) =>
          some (String.mk (sign ++ intPart ++ fracPart ++ expPart), cs4)

mutual

/-- One JSON value by fuel-bounded recursive descent; returns the value
and the unconsumed input. -/
def parseJsonVal : Nat → List Char → Option (Json × List Char)
  | 0, _ => none
  | fuel + 1, cs =>
    match skipJsonWs cs with
    | 'n' :: 'u' :: 'l' :: 'l' :: rest => some (Json.null, rest)
    | 't' :: 'r' :: 'u' :: 'e' :: rest => some (Json.boolean true, rest)
    | 'f' :: 'a' :: 'l' :: 's' :: 'e' :: rest => some (Json.boolean false, rest)
    | '"' :: rest => (parseStrBody [] rest).map (fun p => (Json.str p.1, p.2))
    | '[' :: rest =>
      match skipJsonWs rest with
      | ']' :: rest2 => some (Json.arr [], rest2)
      | rest2 => (parseJsonItems fuel rest2).map (fun p => (Json.arr p.1, p.2))
    | '\x7b' :: rest =>
      match skipJsonWs rest with
      | '\x7d' :: rest2 => some (Json.obj [], rest2)
      | rest2 => (parseJsonFields fuel rest2).map (fun p => (Json.obj p.1, p.2))
    | rest => (parseNumLexeme rest).map (fun p => (Json.num p.1, p.2))

/-- Comma-separated array elements up to the closing bracket. -/
def parseJsonItems : Nat → List Char → Option (List Json × List Char)
  | 0, _ => none
  | fuel + 1, cs =>
    match parseJsonVal fuel cs with
    | none => none
    | some (v, rest) =>
      match skipJsonWs rest with
      | ',' :: rest2 => (parseJsonItems fuel rest2).map (fun p => (v :: p.1, p.2))
      | ']' :: rest2 => some ([v], rest2)
      | _ => none

/-- Comma-separated object members up to the closing brace. -/
def parseJsonFields : Nat → List Char → Option (List (String × Json) × List Char)
  | 0, _ => none
  | fuel + 1, cs =>
    match skipJsonWs cs with
    | '"' :: rest =>
      match parseStrBody [] rest with
      | none => none
      | some (key, rest1) =>
        match skipJsonWs rest1 with
        | ':' :: rest2 =>
          match parseJsonVal fuel rest2 with
          | none => none
          | some (v, rest3) =>
            match skipJsonWs rest3 with
            | ',' :: rest4 =>
              (parseJsonFields fuel rest4).map (fun p => ((key, v) :: p.1, p.2))
            | '\x7d' :: rest4 => some ([(key, v)], rest4)
            | _ => none
        | _ => none
    | _ => none

end

/-- `JSON.parse`: parse one complete JSON text, allowing surrounding
whitespace; `none` models the thrown `SyntaxError`.  The fuel bounds the
recursion depth and is generous: the mutual parser consumes at least one
character every two fuel units. -/
def Json.parse (s : String) : Option Json :=
  match parseJsonVal (4 * s.length + 4) s.data with
  | some (v, rest) => if skipJsonWs rest = [] then some v else none
  | none => none

/-- JavaScript property access `v[name]` on a `JSON.parse` result: defined
only on objects; on duplicate keys the later member wins, as later
assignments overwrite during parsing.  `none` models `undefined`. -/
def jsGetField (v : Json) (name : String) : Option Json :=
  match v with
  | Json.obj fields => (fields.reverse.find? (fun p => p.1 == name)).map (fun p => p.2)
  | _ => none

/-- The comparison `food.safetyClassification === category` of the results
renderer, where `category` is one of the three string literals: strict
equality with a string succeeds only on an equal string. -/
def safetyClassificationIs (food : Json) (category : String) : Bool :=
  match jsGetField food "safetyClassification" with
  | some (Json.str s) => s == category
  | _ => false

/-- The three safety tiers the renderer iterates over. -/
def safetyCategories : List String := ["More Safe", "Questionable", "Avoid"]

/-- `categoryFoods` of the results renderer:
`menuData.foods.filter(food => food.safetyClassification === category)`.
`none` models the `TypeError` thrown when `menuData.foods` is not an
array. -/
def categoryFoods (menuData : Json) (category : String) : Option (List Json) :=
  match jsGetField menuData "foods" with
  | some (Json.arr foods) => some (foods.filter (fun f => safetyClassificationIs f category))
  | _ => none

/-- Outcome of the text branch of `validateAndProceed` in
`menuInput/page.tsx`: a pre-request validation error (`setError` before the
AI call would be consumed), a JSON parse failure (`setError`, nothing
rendered), or a rendered result (`setMenuData` + `setShowResults(true)`). -/
inductive LookupOutcome where
  | validationError : String → LookupOutcome
  | parseFailure : String → LookupOutcome
  | rendered : Json → LookupOutcome

/-- The literal substituted when the AI response is falsy:
`'{"restaurantName": "", "foods": []}'`. -/
def fallbackResponse : String :=
  "\x7b\"restaurantName\": \"\", \"foods\": []\x7d"

/-- The JSON value the fallback literal parses to. -/
def fallbackMenuData : Json :=
  Json.obj [("restaurantName", Json.str ""), ("foods", Json.arr [])]

/-- A syntactically valid lookup response whose single food item carries a
fourth `safetyClassification` value outside the three-tier contract. -/
def fourthTagResponse : String :=
  "\x7b\"restaurantName\": \"Cafe\", \"restaurantInfo\": \"info\", \"foods\": [\x7b\"name\": \"Mystery Cake\", \"safetyClassification\": \"Sort Of Safe\", \"reasoning\": \"r\", \"questions\": \"q\"\x7d]\x7d"

/-- The JSON value `fourthTagResponse` parses to. -/
def fourthTagMenuData : Json :=
  Json.obj [("restaurantName", Json.str "Cafe"), ("restaurantInfo", Json.str "info"),
    ("foods", Json.arr [Json.obj [("name", Json.str "Mystery Cake"),
      ("safetyClassification", Json.str "Sort Of Safe"),
      ("reasoning", Json.str "r"), ("questions", Json.str "q")]])]

/-- The text branch of `validateAndProceed`, as a function of the trimmed
restaurant-name input and the awaited AI response (`none` models a
`null`/`undefined` response): reject a blank restaurant name, substitute
the fallback for a falsy response, then `JSON.parse` the text — a parse
success is stored and shown, a parse failure surfaces an error message. -/
def processTextLookup (restaurantName : String) (aiResponse : Option String) :
    LookupOutcome :=
  if jsTrim restaurantName = "" then
    LookupOutcome.validationError "Please enter a restaurant name to check for allergens"
  else
    let responseText :=
      match aiResponse with
      | none => fallbackResponse
      | some s => if s = "" then fallbackResponse else s
    match Json.parse responseText with
    | some parsedData => LookupOutcome.rendered parsedData
    | none => LookupOutcome.parseFailure
        "Unable to parse response from AI service. Please try again."

/-- The error tags used by `client.ts` (the `error` field of `ApiError`). -/
inductive ApiErrorKind where
  | HTTP_ERROR
  | TIMEOUT
  | NETWORK_ERROR
  | UPLOAD_ERROR
  | PARSE_ERROR
deriving DecidableEq

/-- A thrown JavaScript error as the client observes it: its `name` and
`message`. -/
structure JsError where
  name : String
  message : String
deriving DecidableEq

/-- The `details` payload attached to some `ApiError` values: either
parsed JSON error data or the caught error object. -/
inductive ErrDetails where
  | jsonData : Json → ErrDetails
  | errObj : JsError → ErrDetails

/-- The `ApiError` shape of `client.ts`. -/
structure ApiErr where
  error : ApiErrorKind
  message : String
  code : Option Nat
  details : Option ErrDetails

/-- The tagged union `ApiResponse<T>` of `client.ts`: every call resolves
to `success: true` with data or `success: false` with an `ApiError`. -/
inductive ApiResponse (α : Type) where
  | success : α → ApiResponse α
  | failure : ApiErr → ApiResponse α

/-- `DEFAULT_TIMEOUT` of `client.ts`: 30 seconds in milliseconds. -/
def DEFAULT_TIMEOUT : Nat := 30000

/-- The `ApiClient` configuration: base URL and timeout in
milliseconds. -/
structure ApiClient where
  baseUrl : String
  timeout : Nat

/-- `API_BASE_URL`: the `NEXT_PUBLIC_API_URL` environment variable, with
`'/api'` substituted for a falsy value. -/
def API_BASE_URL (env : Option String) : String := envOrDefault env "/api"

/-- The singleton `new ApiClient()` built with both constructor
defaults. -/
def apiClientDefault (env : Option String) : ApiClient :=
  ⟨API_BASE_URL env, DEFAULT_TIMEOUT⟩

/-- What `await fetch(...)` followed by `await response.json()` delivered
to `ApiClient.request`: a completed response with its HTTP status and the
result of reading its JSON body, or a rejection.  A timeout abort surfaces
as an error named `AbortError` on either await. -/
inductive FetchOutcome where
  | ok : Nat → Except JsError Json → FetchOutcome
  | rejected : JsError → FetchOutcome

/-- The `error.message || 'Network request failed'` fallback. -/
def jsErrMessageOr (e : JsError) (dflt : String) : String :=
  if e.message = "" then dflt else e.message

/-- `ApiClient.request` of `client.ts` as a function of the fetch outcome:
a non-2xx status is reported as `HTTP_ERROR` carrying the status code (its
body read with a `.catch` defaulting to `{}`), a 2xx body-parse success
resolves successfully, and any caught error is bucketed as `TIMEOUT` when
it is an `AbortError` and `NETWORK_ERROR` otherwise.  The function is
total: the promise always resolves to the tagged union. -/
def request (outcome : FetchOutcome) : ApiResponse Json :=
  match outcome with
  | FetchOutcome.ok status jsonBody =>
    if 200 ≤ status ∧ status < 300 then
      match jsonBody with
      | Except.ok data => ApiResponse.success data
      | Except.error e =>
        if e.name = "AbortError" then
          ApiResponse.failure ⟨ApiErrorKind.TIMEOUT, "Request timed out", none, none⟩
        else
          ApiResponse.failure ⟨ApiErrorKind.NETWORK_ERROR,
            jsErrMessageOr e "Network request failed", none, some (ErrDetails.errObj e)⟩
    else
      ApiResponse.failure ⟨ApiErrorKind.HTTP_ERROR,
        "Request failed with status " ++ toString status, some status,
        some (ErrDetails.jsonData (match jsonBody with
          | Except.ok j => j
          | Except.error _ => Json.obj []))⟩
  | FetchOutcome.rejected e =>
    if e.name = "AbortError" then
      ApiResponse.failure ⟨ApiErrorKind.TIMEOUT, "Request timed out", none, none⟩
    else
      ApiResponse.failure ⟨ApiErrorKind.NETWORK_ERROR,
        jsErrMessageOr e "Network request failed", none, some (ErrDetails.errObj e)⟩

/-- Whether a `JSON.parse` result is callable as a function.  `JSON.parse`
produces only `null`, booleans, numbers, strings, arrays and plain
objects, none of which is a function, so this is false in every case. -/
def Json.isCallable : Json → Bool
  | Json.null => false
  | Json.boolean _ => false
  | Json.num _ => false
  | Json.str _ => false
  | Json.arr _ => false
  | Json.obj _ => false

/-- The JavaScript method call `v.name(...)` on a `JSON.parse` result:
look the property up, then call it.  As no such property is callable, the
call always throws a `TypeError`; the `Except.ok` arm exists only to type
the (unreachable) successful call. -/
def jsCallMember (v : Json) (name : String) : Except JsError Json :=
  match jsGetField v name with
  | some f =>
    if f.isCallable then Except.ok Json.null
    else Except.error ⟨"TypeError", name ++ " is not a function"⟩
  | none => Except.error ⟨"TypeError", name ++ " is not a function"⟩

/-- The `load` handler of `ApiClient.uploadFile`, as a function of the
completed `XMLHttpRequest`'s status and response text.  For a 2xx status
the body is parsed and resolved; otherwise the handler evaluates
`JSON.parse(xhr.responseText).catch(() => ({}))` — which throws (either
`JSON.parse` itself or the `.catch` call on its non-promise result) — and
the surrounding catch resolves with `PARSE_ERROR`.  The `UPLOAD_ERROR`
resolution is kept as written in the source. -/
def uploadLoadHandler (status : Nat) (responseText : String) : ApiResponse Json :=
  if 200 ≤ status ∧ status < 300 then
    match Json.parse responseText with
    | some data => ApiResponse.success data
    | none => ApiResponse.failure
        ⟨ApiErrorKind.PARSE_ERROR, "Failed to parse response", none, none⟩
  else
    match Json.parse responseText with
    | none => ApiResponse.failure
        ⟨ApiErrorKind.PARSE_ERROR, "Failed to parse response", none, none⟩
    | some v =>
      match jsCallMember v "catch" with
      | Except.error _ => ApiResponse.failure
          ⟨ApiErrorKind.PARSE_ERROR, "Failed to parse response", none, none⟩
      | Except.ok errorData => ApiResponse.failure
          ⟨ApiErrorKind.UPLOAD_ERROR, "Upload failed with status " ++ toString status,
            some status, some (ErrDetails.jsonData errorData)⟩

/-! ## Helper lemmas -/

/-- A string holding a non-whitespace character does not trim to empty. -/
theorem jsTrim_ne_empty_of_mem {s : String} {c : Char} (hc : c ∈ s.data)
    (hw : jsWs c = false) : jsTrim s ≠ "" := by
  intro h
  have hdata : ((s.data.dropWhile jsWs).reverse.dropWhile jsWs).reverse = [] := by
    simpa [jsTrim] using congrArg String.data h
  have hnil : (s.data.dropWhile jsWs).reverse.dropWhile jsWs = [] := by
    simpa using hdata
  have hall : ∀ x ∈ (s.data.dropWhile jsWs).reverse, jsWs x :=
    List.dropWhile_eq_nil_iff.mp hnil
  have hsplit := List.takeWhile_append_dropWhile (p := jsWs) (l := s.data)
  rw [← hsplit] at hc
  rcases List.mem_append.mp hc with h1 | h2
  · exact absurd (List.mem_takeWhile_imp h1) (by simp [hw])
  · have := hall c (List.mem_reverse.mpr h2)
    simp [hw] at this

/-- A value accepted by `validateAllergyInput` is non-blank after trim. -/
theorem jsTrim_ne_empty_of_valid {v : String} (h : validateAllergyInput v = "") :
    jsTrim v ≠ "" := by
  intro hb
  rw [validateAllergyInput, if_pos hb] at h
  exact absurd h (by decide)

/-- `JSON.parse` results are never callable. -/
theorem json_isCallable_false (v : Json) : v.isCallable = false := by
  cases v <;> rfl

/-- Calling a method on a `JSON.parse` result always throws a
`TypeError`. -/
theorem jsCallMember_error (v : Json) (s : String) :
    jsCallMember v s = Except.error ⟨"TypeError", s ++ " is not a function"⟩ := by
  unfold jsCallMember
  cases h : jsGetField v s with
  | none => rfl
  | some f => simp [json_isCallable_false f]

/-! ## Claims -/

/-- C4 counterexample.  The claim fails on two points: the whitespace-only
string of two spaces contains only letters and spaces and has length 2,
yet `validateAllergyInput` rejects it; and the string of a letter plus a
space has only one character after trimming, yet passes, because the code
tests the untrimmed length. -/
theorem validateAllergyInput_spec_counterexample :
    (lettersAndSpacesTest "  " = true ∧ ("  " : String).length = 2 ∧
      validateAllergyInput "  " = "This field is required") ∧
    ((jsTrim "a ").length = 1 ∧ validateAllergyInput "a " = "") := by
  exact ⟨⟨by decide, by decide, by decide⟩, by decide, by decide⟩

/-- C4 amended: `validateAllergyInput` returns no error for every string
of letters and whitespace that is not whitespace-only and has untrimmed
length at least 2; it errors on every string containing a character that
is neither a letter nor whitespace, on every string empty after trimming,
and on every string of untrimmed length below 2. -/
theorem validateAllergyInput_amended (s : String) :
    (s.data.all (fun c => isAsciiLetter c || jsWs c) = true → jsTrim s ≠ "" →
      2 ≤ s.length → validateAllergyInput s = "") ∧
    ((∃ c, c ∈ s.data ∧ isAsciiLetter c = false ∧ jsWs c = false) →
      validateAllergyInput s ≠ "") ∧
    (jsTrim s = "" → validateAllergyInput s ≠ "") ∧
    (s.length < 2 → validateAllergyInput s ≠ "") := by
  refine ⟨?_, ?_, ?_, ?_⟩
  · intro h1 h2 h3
    have hs : s ≠ "" := by
      intro h
      rw [h] at h2
      exact h2 rfl
    have hne : s.isEmpty = false :=
      Bool.eq_false_iff.mpr (fun h => hs ((String.isEmpty_iff s).mp h))
    simp [validateAllergyInput, lettersAndSpacesTest, h2, hne, h1, Nat.not_lt.mpr h3]
  · rintro ⟨c, hc, hlet, hws⟩
    have htrim : jsTrim s ≠ "" := jsTrim_ne_empty_of_mem hc hws
    have htest : lettersAndSpacesTest s = false := by
      unfold lettersAndSpacesTest
      have : s.data.all (fun c => isAsciiLetter c || jsWs c) = false := by
        rw [List.all_eq_false]
        exact ⟨c, hc, by simp [hlet, hws]⟩
      simp [this]
    unfold validateAllergyInput
    rw [if_neg htrim, htest]
    by_cases hlen : s.length < 2 <;> simp [hlen]
  · intro h
    simp [validateAllergyInput, h]
  · intro h
    unfold validateAllergyInput
    by_cases h1 : jsTrim s = ""
    · simp [h1]
    · by_cases h2 : lettersAndSpacesTest s
      · simp [h1, h2, h]
      · simp [h1, h2]

/-- C4 witness: `"ab"` passes and `"a1"` fails. -/
theorem validateAllergyInput_amended_witness :
    validateAllergyInput "ab" = "" ∧ validateAllergyInput "a1" ≠ "" :=
  ⟨(validateAllergyInput_amended "ab").1 (by decide) (by decide) (by decide),
   (validateAllergyInput_amended "a1").2.1 ⟨'1', by decide, by decide, by decide⟩⟩

/-- C2 counterexample: with a valid name, a valid email, a valid entry
`"Peanuts"` and a second blank entry, `validateAllFields` fails (the blank
entry is flagged as a required field) and `handleSubmit` produces no
profile — the claim asserted the submission would succeed with
`allergies = ["Peanuts"]`. -/
theorem blank_entry_blocks_submit_counterexample :
    validateName "Alice" = "" ∧ validateEmail "a@b.com" = "" ∧
    validateAllergyInput "Peanuts" = "" ∧
    validateAllergyInput "" = "This field is required" ∧
    (validateAllFields ⟨"Alice", "a@b.com", ""⟩
        [⟨"1", "Peanuts", ""⟩, ⟨"2", "", ""⟩]).1 = false ∧
    handleSubmit ⟨"Alice", "a@b.com", ""⟩
        [⟨"1", "Peanuts", ""⟩, ⟨"2", "", ""⟩] "2025-01-01T00:00:00.000Z" = none := by
  exact ⟨by decide, by decide, by decide, by decide, by decide, by decide⟩

/-- C2 amended: a blank extra entry does count as a validation error and
blocks submission — `handleSubmit` produces no profile whenever any entry
is blank after trimming; only a form whose entries are all valid submits,
and then the profile's allergies are the trimmed values of all entries in
order. -/
theorem blank_entry_blocks_submit_amended (fd : FormData)
    (fields : List AllergyField) (t : String) :
    ((∃ f, f ∈ fields ∧ jsTrim f.value = "") → handleSubmit fd fields t = none) ∧
    (validateName fd.name = "" → validateEmail fd.email = "" → fields ≠ [] →
      (∀ f, f ∈ fields → validateAllergyInput f.value = "" ∧ f.error = "") →
      handleSubmit fd fields t =
        some ⟨jsTrim fd.name, jsTrim fd.email, jsTrim fd.emergencyContact,
          fields.map (fun f => jsTrim f.value), t⟩) := by
  constructor
  · rintro ⟨f, hf, hblank⟩
    have hv : validateAllergyInput f.value = "This field is required" := by
      simp [validateAllergyInput, hblank]
    unfold handleSubmit
    rw [if_neg]
    intro htrue
    unfold validateAllFields at htrue
    simp only [Bool.and_eq_true, List.all_eq_true] at htrue
    obtain ⟨⟨⟨hall, _⟩, _⟩, _⟩ := htrue
    have hmem : (AllergyField.mk f.id f.value (validateAllergyInput f.value)) ∈
        fields.map (fun g => AllergyField.mk g.id g.value (validateAllergyInput g.value)) :=
      List.mem_map_of_mem _ hf
    have := hall _ hmem
    rw [hv] at this
    simp at this
  · intro hn he hne hvalid
    have hall : ∀ f ∈ fields, validateAllergyInput f.value = "" := fun f hf => (hvalid f hf).1
    have hisValid : (validateAllFields fd fields).1 = true := by
      unfold validateAllFields
      simp only [Bool.and_eq_true, List.all_eq_true]
      refine ⟨⟨⟨?_, ?_⟩, ?_⟩, ?_⟩
      · intro x hx
        obtain ⟨g, hg, rfl⟩ := List.mem_map.mp hx
        simp [hall g hg]
      · obtain ⟨g, hg⟩ := List.exists_mem_of_ne_nil fields hne
        unfold hasValidAllergyIn
        rw [List.any_eq_true]
        refine ⟨AllergyField.mk g.id g.value (validateAllergyInput g.value),
          List.mem_map_of_mem _ hg, ?_⟩
        simp [hall g hg, jsTrim_ne_empty_of_valid (hall g hg)]
      · simp [hn]
      · simp [he]
    unfold handleSubmit
    rw [if_pos hisValid]
    have hfilter : fields.filter (fun f => jsTrim f.value != "" && f.error == "") = fields := by
      rw [List.filter_eq_self]
      intro f hf
      simp [jsTrim_ne_empty_of_valid (hall f hf), (hvalid f hf).2]
    rw [hfilter]

/-- C2 witness for the amended claim, at the counterexample's form
state. -/
theorem blank_entry_blocks_submit_amended_witness :
    handleSubmit ⟨"Alice", "a@b.com", ""⟩
        [⟨"1", "Peanuts", ""⟩, ⟨"2", "", ""⟩] "t" = none :=
  (blank_entry_blocks_submit_amended ⟨"Alice", "a@b.com", ""⟩
      [⟨"1", "Peanuts", ""⟩, ⟨"2", "", ""⟩] "t").1
    ⟨⟨"2", "", ""⟩, by decide, by decide⟩

/-- C8: when no entry is both non-blank and error-free, `validateAllFields`
reports the allergies-scoped message and fails, `handleSubmit` produces no
profile, and the stored profile is unchanged. -/
theorem no_valid_allergy_submit_fails (fd : FormData) (fields : List AllergyField)
    (t : String) (prev : Option SubmissionData)
    (h : ∀ f, f ∈ fields → ¬(jsTrim f.value ≠ "" ∧ validateAllergyInput f.value = "")) :
    (validateAllFields fd fields).2.1.allergies = "At least one allergy must be provided" ∧
    (validateAllFields fd fields).1 = false ∧
    handleSubmit fd fields t = none ∧
    submitStoredProfile prev fd fields t = prev := by
  have hany : hasValidAllergyIn
      (fields.map (fun f => AllergyField.mk f.id f.value (validateAllergyInput f.value))) =
      false := by
    unfold hasValidAllergyIn
    rw [List.any_eq_false]
    intro x hx
    obtain ⟨g, hg, rfl⟩ := List.mem_map.mp hx
    intro hcontra
    simp only [Bool.and_eq_true, bne_iff_ne, beq_iff_eq] at hcontra
    exact h g hg ⟨hcontra.1, hcontra.2⟩
  have h1 : (validateAllFields fd fields).2.1.allergies =
      "At least one allergy must be provided" := by
    unfold validateAllFields
    simp [hany]
  have h2 : (validateAllFields fd fields).1 = false := by
    unfold validateAllFields
    simp [hany]
  refine ⟨h1, h2, ?_, ?_⟩
  · unfold handleSubmit
    simp [h2]
  · unfold submitStoredProfile handleSubmit
    simp [h2]

/-- C8 witness: a single blank entry. -/
theorem no_valid_allergy_submit_fails_witness :
    (validateAllFields ⟨"Bob", "b@c.org", ""⟩ [⟨"1", "", ""⟩]).1 = false ∧
    handleSubmit ⟨"Bob", "b@c.org", ""⟩ [⟨"1", "", ""⟩] "t" = none := by
  have h := no_valid_allergy_submit_fails ⟨"Bob", "b@c.org", ""⟩ [⟨"1", "", ""⟩] "t" none
    (by decide)
  exact ⟨h.2.1, h.2.2.1⟩

/-- C7: removal from a single-entry list is the identity; on lists with
pairwise-distinct ids (as the form maintains: initial ids are successive
indices and added ids are fresh UUIDs) removal and addition preserve
non-emptiness and distinctness, so every operation sequence keeps at least
one entry. -/
theorem remove_entry_singleton_noop (fields : List AllergyField) (fid newId : String) :
    (fields.length = 1 → removeAllergyField fields fid = fields) ∧
    ((fields.map AllergyField.id).Nodup → fields ≠ [] →
      removeAllergyField fields fid ≠ [] ∧
      ((removeAllergyField fields fid).map AllergyField.id).Nodup) ∧
    (addAllergyField fields newId ≠ []) ∧
    (newId ∉ fields.map AllergyField.id → (fields.map AllergyField.id).Nodup →
      ((addAllergyField fields newId).map AllergyField.id).Nodup) := by
  refine ⟨?_, ?_, ?_, ?_⟩
  · intro h
    simp [removeAllergyField, h]
  · intro hnd hne
    constructor
    · unfold removeAllergyField
      by_cases hlen : fields.length > 1
      · rw [if_pos hlen]
        match fields, hlen with
        | a :: b :: rest, _ =>
          by_cases ha : a.id = fid
          · have hb : b.id ≠ fid := by
              intro hb
              have : a.id ∈ (b :: rest).map AllergyField.id := by
                simp [hb, ha]
              simp only [List.map_cons, List.nodup_cons] at hnd
              exact hnd.1 this
            have hmemb : b ∈ (a :: b :: rest).filter (fun f => f.id != fid) :=
              List.mem_filter.mpr ⟨by simp, by simp [hb]⟩
            exact List.ne_nil_of_mem hmemb
          · have hmema : a ∈ (a :: b :: rest).filter (fun f => f.id != fid) :=
              List.mem_filter.mpr ⟨by simp, by simp [ha]⟩
            exact List.ne_nil_of_mem hmema
      · rw [if_neg hlen]
        exact hne
    · unfold removeAllergyField
      by_cases hlen : fields.length > 1
      · rw [if_pos hlen]
        exact hnd.sublist ((List.filter_sublist fields).map AllergyField.id)
      · rw [if_neg hlen]
        exact hnd
  · simp [addAllergyField]
  · intro hfresh hnd
    unfold addAllergyField
    simp only [List.map_append, List.map_cons, List.map_nil]
    rw [List.nodup_append]
    refine ⟨hnd, List.nodup_singleton _, ?_⟩
    intro a ha hb
    simp only [List.mem_singleton] at hb
    subst hb
    exact hfresh ha

/-- C7 witness: removing the only entry leaves the list unchanged. -/
theorem remove_entry_singleton_noop_witness :
    removeAllergyField [⟨"1", "Peanuts", ""⟩] "1" = [⟨"1", "Peanuts", ""⟩] :=
  (remove_entry_singleton_noop [⟨"1", "Peanuts", ""⟩] "1" "x").1 rfl

/-- C3: when the API key or the endpoint is missing (unset or empty),
`getSafeFoodsByRestaurantName` fails with the corresponding descriptive
configuration error, and no outbound request value is ever produced — the
checks precede client construction and the network call. -/
theorem missing_config_fails_before_network (env : AzureEnv) (r : String)
    (a : List String) :
    (jsFalsyEnv env.apiKeyVar = true →
      getSafeFoodsByRestaurantName env r a = Except.error (LookupError.missingConfig
        "AZURE_OPENAI_API_KEY environment variable is required")) ∧
    (jsFalsyEnv env.apiKeyVar = false → jsFalsyEnv env.endpointVar = true →
      getSafeFoodsByRestaurantName env r a = Except.error (LookupError.missingConfig
        "AZURE_OPENAI_ENDPOINT environment variable is required")) ∧
    ((jsFalsyEnv env.apiKeyVar = true ∨ jsFalsyEnv env.endpointVar = true) →
      ∀ req, getSafeFoodsByRestaurantName env r a ≠ Except.ok req) := by
  refine ⟨?_, ?_, ?_⟩
  · intro h
    simp [getSafeFoodsByRestaurantName, h]
  · intro h1 h2
    simp [getSafeFoodsByRestaurantName, h1, h2]
  · rintro (h | h) req
    · simp [getSafeFoodsByRestaurantName, h]
    · by_cases h1 : jsFalsyEnv env.apiKeyVar = true
      · simp [getSafeFoodsByRestaurantName, h1]
      · simp only [Bool.not_eq_true] at h1
        simp [getSafeFoodsByRestaurantName, h1, h]

/-- C3 witness: an unset API key with a configured endpoint. -/
theorem missing_config_fails_before_network_witness :
    getSafeFoodsByRestaurantName ⟨none, none, some "https://example.test", none, none⟩
        "Olive Garden" ["peanuts"] =
      Except.error (LookupError.missingConfig
        "AZURE_OPENAI_API_KEY environment variable is required") :=
  (missing_config_fails_before_network ⟨none, none, some "https://example.test", none, none⟩
      "Olive Garden" ["peanuts"]).1 rfl

/-- C5: whenever a request is assembled, its user message embeds the
allergy list joined by a comma and space when the list is non-empty, and
the literal placeholder text when it is empty. -/
theorem prompt_embeds_allergy_text (env : AzureEnv) (r : String) (a : List String)
    (req : ChatRequest) (h : getSafeFoodsByRestaurantName env r a = Except.ok req) :
    (a ≠ [] → req.userContent =
      "I have allergies to: " ++ String.intercalate ", " a ++ promptTail r) ∧
    (a = [] → req.userContent =
      "I have allergies to: " ++ "no specific allergies mentioned" ++ promptTail r) := by
  have hcontent : req.userContent = userPrompt r (allergiesListText a) := by
    unfold getSafeFoodsByRestaurantName at h
    by_cases h1 : jsFalsyEnv env.apiKeyVar = true
    · simp [h1] at h
    · simp only [Bool.not_eq_true] at h1
      by_cases h2 : jsFalsyEnv env.endpointVar = true
      · simp [h1, h2] at h
      · simp only [Bool.not_eq_true] at h2
        simp only [h1, h2, Bool.false_eq_true, if_false] at h
        cases h
        rfl
  constructor
  · intro hne
    rw [hcontent]
    unfold userPrompt allergiesListText
    rw [if_pos (by simpa [List.length_pos] using hne)]
  · intro hnil
    rw [hcontent, hnil]
    rfl

/-- C5 witness: for allergies `["shellfish"]` the embedded text reads
exactly `"shellfish"`. -/
theorem prompt_embeds_allergy_text_witness :
    (ChatRequest.mk "https://example.test" "gpt-4o" "2024-08-01-preview" "gpt-4o"
        systemPrompt (userPrompt "Olive Garden" (allergiesListText ["shellfish"]))).userContent =
      "I have allergies to: " ++ String.intercalate ", " ["shellfish"] ++
        promptTail "Olive Garden" ∧
    String.intercalate ", " ["shellfish"] = "shellfish" :=
  ⟨(prompt_embeds_allergy_text ⟨some "key", none, some "https://example.test", none, none⟩
      "Olive Garden" ["shellfish"] _ rfl).1 (by decide), rfl⟩

/-- C1 counterexample: a response whose item carries the fourth tag
`"Sort Of Safe"` is not treated as an error — the flow renders the parsed
data — and the item appears in none of the three category lists, i.e. it
is silently dropped. -/
theorem fourth_tag_silently_dropped_counterexample :
    processTextLookup "Cafe" (some fourthTagResponse) =
      LookupOutcome.rendered fourthTagMenuData ∧
    categoryFoods fourthTagMenuData "More Safe" = some [] ∧
    categoryFoods fourthTagMenuData "Questionable" = some [] ∧
    categoryFoods fourthTagMenuData "Avoid" = some [] :=
  ⟨rfl, rfl, rfl, rfl⟩

/-- C1 amended: the lookup flow performs no schema validation — any
response that parses as JSON is rendered, never reported as malformed —
and an item whose `safetyClassification` is not a given category string is
excluded from that category's list, so an item carrying a fourth tag is
silently dropped from all three rendered categories. -/
theorem fourth_tag_amended (r s : String) (m : Json)
    (hr : jsTrim r ≠ "") (hs : s ≠ "") (hp : Json.parse s = some m) :
    processTextLookup r (some s) = LookupOutcome.rendered m ∧
    (∀ f c xs, safetyClassificationIs f c = false → categoryFoods m c = some xs →
      f ∉ xs) := by
  constructor
  · simp [processTextLookup, hr, hs, hp]
  · intro f c xs hf hxs
    unfold categoryFoods at hxs
    cases hfield : jsGetField m "foods" with
    | none => rw [hfield] at hxs; cases hxs
    | some v =>
      rw [hfield] at hxs
      cases v with
      | arr foods =>
        simp only [Option.some.injEq] at hxs
        subst hxs
        intro hmem
        have := (List.mem_filter.mp hmem).2
        rw [hf] at this
        cases this
      | null => cases hxs
      | boolean b => cases hxs
      | num l => cases hxs
      | str l => cases hxs
      | obj l => cases hxs

/-- C1 witness for the amended claim, at the fourth-tag response. -/
theorem fourth_tag_amended_witness :
    processTextLookup "Cafe" (some fourthTagResponse) =
      LookupOutcome.rendered fourthTagMenuData ∧
    Json.str "x" ∉ ([] : List Json) :=
  ⟨(fourth_tag_amended "Cafe" fourthTagResponse fourthTagMenuData
      (by decide) (by decide) rfl).1,
   (fourth_tag_amended "Cafe" fourthTagResponse fourthTagMenuData
      (by decide) (by decide) rfl).2 (Json.str "x") "Avoid" [] rfl rfl⟩

/-- C6 counterexample: `"[]"` is valid JSON that fails the declared
`MenuData` shape (it has neither `restaurantName` nor `foods` members),
yet the flow renders it instead of surfacing a malformed-response
error. -/
theorem wrong_shape_rendered_counterexample :
    Json.parse "[]" = some (Json.arr []) ∧
    jsGetField (Json.arr []) "restaurantName" = none ∧
    jsGetField (Json.arr []) "foods" = none ∧
    processTextLookup "Olive Garden" (some "[]") =
      LookupOutcome.rendered (Json.arr []) :=
  ⟨rfl, rfl, rfl, rfl⟩

/-- C6 amended: an empty or null response is replaced by the documented
fallback (empty restaurant name, empty foods list) and rendered; a
response that fails to parse as JSON text surfaces a parse error without
rendering; but a response that is valid JSON of the wrong shape is not
detected — it is rendered as-is. -/
theorem empty_response_fallback_amended (r : String) (hr : jsTrim r ≠ "") :
    processTextLookup r none = LookupOutcome.rendered fallbackMenuData ∧
    processTextLookup r (some "") = LookupOutcome.rendered fallbackMenuData ∧
    Json.parse fallbackResponse = some fallbackMenuData ∧
    (∀ s, s ≠ "" → Json.parse s = none →
      processTextLookup r (some s) = LookupOutcome.parseFailure
        "Unable to parse response from AI service. Please try again.") := by
  refine ⟨?_, ?_, rfl, ?_⟩
  · simp [processTextLookup, hr]
    rfl
  · simp [processTextLookup, hr]
    rfl
  · intro s hs hp
    simp [processTextLookup, hr, hs, hp]

/-- C6 witness: null response renders the fallback; unparsable text
surfaces the parse error. -/
theorem empty_response_fallback_amended_witness :
    processTextLookup "Olive Garden" none = LookupOutcome.rendered fallbackMenuData ∧
    processTextLookup "Olive Garden" (some "not json") = LookupOutcome.parseFailure
      "Unable to parse response from AI service. Please try again." :=
  ⟨(empty_response_fallback_amended "Olive Garden" (by decide)).1,
   (empty_response_fallback_amended "Olive Garden" (by decide)).2.2.2
     "not json" (by decide) rfl⟩

/-- C9: the default-constructed client times out after 30000 ms; `request`
always resolves to the tagged union, classifying every failure as
`NETWORK_ERROR`, `TIMEOUT` or `HTTP_ERROR`; a completed non-2xx response
yields `HTTP_ERROR` carrying the status code; a rejection named
`AbortError` — the cancellation the timeout's `AbortController` raises —
yields `TIMEOUT`. -/
theorem request_resolves_classified (outcome : FetchOutcome) (env : Option String) :
    (apiClientDefault env).timeout = 30000 ∧
    ((∃ d, request outcome = ApiResponse.success d) ∨
      (∃ e, request outcome = ApiResponse.failure e ∧
        (e.error = ApiErrorKind.NETWORK_ERROR ∨ e.error = ApiErrorKind.TIMEOUT ∨
          e.error = ApiErrorKind.HTTP_ERROR))) ∧
    (∀ status body, outcome = FetchOutcome.ok status body →
      ¬(200 ≤ status ∧ status < 300) →
      request outcome = ApiResponse.failure
        ⟨ApiErrorKind.HTTP_ERROR, "Request failed with status " ++ toString status,
          some status,
          some (ErrDetails.jsonData (match body with
            | Except.ok j => j
            | Except.error _ => Json.obj []))⟩) ∧
    (∀ e, outcome = FetchOutcome.rejected e → e.name = "AbortError" →
      request outcome = ApiResponse.failure
        ⟨ApiErrorKind.TIMEOUT, "Request timed out", none, none⟩) := by
  refine ⟨rfl, ?_, ?_, ?_⟩
  · cases outcome with
    | ok status body =>
      by_cases h2xx : 200 ≤ status ∧ status < 300
      · cases body with
        | ok d =>
          left
          exact ⟨d, by simp [request, h2xx]⟩
        | error e =>
          right
          by_cases habort : e.name = "AbortError"
          · exact ⟨⟨ApiErrorKind.TIMEOUT, "Request timed out", none, none⟩,
              by simp [request, h2xx, habort], Or.inr (Or.inl rfl)⟩
          · exact ⟨⟨ApiErrorKind.NETWORK_ERROR, jsErrMessageOr e "Network request failed",
                none, some (ErrDetails.errObj e)⟩,
              by simp [request, h2xx, habort], Or.inl rfl⟩
      · right
        exact ⟨⟨ApiErrorKind.HTTP_ERROR, "Request failed with status " ++ toString status,
            some status, some (ErrDetails.jsonData (match body with
              | Except.ok j => j
              | Except.error _ => Json.obj []))⟩,
          by simp [request, h2xx], Or.inr (Or.inr rfl)⟩
    | rejected e =>
      right
      by_cases habort : e.name = "AbortError"
      · exact ⟨⟨ApiErrorKind.TIMEOUT, "Request timed out", none, none⟩,
          by simp [request, habort], Or.inr (Or.inl rfl)⟩
      · exact ⟨⟨ApiErrorKind.NETWORK_ERROR, jsErrMessageOr e "Network request failed",
            none, some (ErrDetails.errObj e)⟩,
          by simp [request, habort], Or.inl rfl⟩
  · intro status body hout h2xx
    subst hout
    simp [request, h2xx]
  · intro e hout habort
    subst hout
    simp [request, habort]

/-- C9 witness: an aborted request resolves to the timeout bucket. -/
theorem request_resolves_classified_witness :
    request (FetchOutcome.rejected ⟨"AbortError", "aborted"⟩) =
      ApiResponse.failure ⟨ApiErrorKind.TIMEOUT, "Request timed out", none, none⟩ :=
  (request_resolves_classified (FetchOutcome.rejected ⟨"AbortError", "aborted"⟩)
      none).2.2.2 ⟨"AbortError", "aborted"⟩ rfl rfl

/-- C10: every completed upload with a status outside 200–299 resolves to
`PARSE_ERROR` — never `UPLOAD_ERROR` — because
`JSON.parse(xhr.responseText).catch(...)` always throws (either
`JSON.parse` rejects the text, or the `.catch` call on its non-promise
result raises a `TypeError`), landing in the handler's catch block; the
promise still resolves. -/
theorem upload_error_unreachable (status : Nat) (responseText : String)
    (h : ¬(200 ≤ status ∧ status < 300)) :
    uploadLoadHandler status responseText =
      ApiResponse.failure
        ⟨ApiErrorKind.PARSE_ERROR, "Failed to parse response", none, none⟩ := by
  unfold uploadLoadHandler
  rw [if_neg h]
  cases hp : Json.parse responseText with
  | none => rfl
  | some v => simp [jsCallMember_error]

/-- C10 witness: a 404 upload with a well-formed JSON body still resolves
to `PARSE_ERROR`. -/
theorem upload_error_unreachable_witness :
    uploadLoadHandler 404 "\x7b\x7d" =
      ApiResponse.failure
        ⟨ApiErrorKind.PARSE_ERROR, "Failed to parse response", none, none⟩ :=
  upload_error_unreachable 404 "\x7b\x7d" (by decide)

end AllergyAlert
